import Mathlib

/-!
Verification of the MSSQL MCP server core (`src/index.ts`): config
resolution (`createSqlConfig`), the connection lifecycle
(`ensureSqlConnection`), the read-only mode gate on tool listing, and the
tool-call dispatcher.  The TypeScript is shallowly embedded: environment
variables become an `Env` record of `Option String` fields, JS numbers
that may be `NaN` become `Option Int`, thrown JS errors become
`Except String`, and the asynchronous effects of the connection code
(connect attempts, backoff waits, pool closes, handler invocations) are
recorded as an explicit event trace.
-/

namespace McpSqlServer

/-- The process environment, restricted to the variables `src/index.ts`
reads.  A field is `none` when the variable is unset. -/
structure Env where
  SERVER_NAME : Option String
  DATABASE_NAME : Option String
  SQL_USERNAME : Option String
  SQL_PASSWORD : Option String
  PORT : Option String
  TRUST_SERVER_CERTIFICATE : Option String
  CONNECTION_TIMEOUT : Option String
  READONLY : Option String
  DEBUG : Option String
deriving DecidableEq, Repr

/-- JS truthiness of an `Option String`: `undefined` and the empty string
are falsy, every other string is truthy. -/
def strTruthy (o : Option String) : Bool :=
  match o with
  | some s => !(s == "")
  | none => false

/-- Numeric value of a list of decimal digit characters. -/
def digitsToNat (cs : List Char) : Nat :=
  cs.foldl (fun a c => a * 10 + (c.toNat - 48)) 0

/-- JavaScript `parseInt(s, 10)`: skip leading whitespace, accept an
optional sign, read the maximal prefix of decimal digits; `none` models
`NaN` (no digits found). -/
def parseIntJS (s : String) : Option Int :=
  let cs := s.toList.dropWhile (fun c => c == ' ' || c == '\t' || c == '\n' || c == '\r')
  match cs with
  | [] => none
  | c :: rest =>
    if c == '-' then
      let ds := rest.takeWhile Char.isDigit
      if ds.isEmpty then none else some (-(Int.ofNat (digitsToNat ds)))
    else if c == '+' then
      let ds := rest.takeWhile Char.isDigit
      if ds.isEmpty then none else some (Int.ofNat (digitsToNat ds))
    else
      let ds := (c :: rest).takeWhile Char.isDigit
      if ds.isEmpty then none else some (Int.ofNat (digitsToNat ds))

/-- The `sql.config` object built by `createSqlConfig`.  JS numbers that
can be `NaN` (timeouts derived from `parseInt`) are `Option Int`;
`server`/`database`/`user`/`password` keep the `undefined`-ability of the
environment variables they are read from (the `!` assertions in the
TypeScript are erased at runtime). -/
structure SqlConfig where
  server : Option String
  port : Int
  database : Option String
  user : Option String
  password : Option String
  encrypt : Bool
  trustServerCertificate : Bool
  enableArithAbort : Bool
  minTlsVersion : Option String
  connectionTimeoutMs : Option Int
  requestTimeoutMs : Option Int
  poolMax : Nat
  poolMin : Nat
  poolIdleTimeoutMillis : Nat
  poolAcquireTimeoutMillis : Option Int
deriving DecidableEq, Repr

/-- The port value `createSqlConfig` computes:
`process.env.PORT ? parseInt(process.env.PORT, 10) : 1433`
(`none` models `NaN`; an unset or empty `PORT` is falsy and defaults to
1433). -/
def resolvePort (env : Env) : Option Int :=
  match env.PORT with
  | some s => if s == "" then some 1433 else parseIntJS s
  | none => some 1433

/-- Rendering of `process.env.PORT` inside a template literal (an unset
variable prints as `undefined`). -/
def portDisplay (env : Env) : String :=
  match env.PORT with
  | some s => s
  | none => "undefined"

/-- The message of the error thrown for an out-of-range or `NaN` port. -/
def invalidPortMsg (env : Env) : String :=
  "Invalid port number: " ++ portDisplay env ++ ". Must be between 1 and 65535."

/-- `createSqlConfig` from `src/index.ts`: validates only the port, applies
macOS-specific overrides, and passes the credential variables through
unchecked.  `platform` stands for `os.platform()`. -/
def createSqlConfig (env : Env) (platform : String) : Except String SqlConfig :=
  let trustServerCertificate := (env.TRUST_SERVER_CERTIFICATE.map String.toLower) == some "true"
  let connectionTimeout : Option Int :=
    if strTruthy env.CONNECTION_TIMEOUT then parseIntJS (env.CONNECTION_TIMEOUT.getD "")
    else some 30
  match resolvePort env with
  | none => Except.error (invalidPortMsg env)
  | some port =>
    if port < 1 || port > 65535 then Except.error (invalidPortMsg env)
    else
      let isMacOS := platform == "darwin"
      let adjustedTimeout : Option Int :=
        if isMacOS && !(strTruthy env.CONNECTION_TIMEOUT) then some 60 else connectionTimeout
      Except.ok
        { server := env.SERVER_NAME
          port := port
          database := env.DATABASE_NAME
          user := env.SQL_USERNAME
          password := env.SQL_PASSWORD
          encrypt := true
          trustServerCertificate := if isMacOS then true else trustServerCertificate
          enableArithAbort := true
          minTlsVersion := if isMacOS then some "TLSv1.2" else none
          connectionTimeoutMs := adjustedTimeout.map (fun t => t * 1000)
          requestTimeoutMs := adjustedTimeout.map (fun t => t * 1000)
          poolMax := 10
          poolMin := 0
          poolIdleTimeoutMillis := 30000
          poolAcquireTimeoutMillis := adjustedTimeout.map (fun t => t * 1000) }

/-- A `sql.ConnectionPool` as the core observes it: an identity (so that
"the old pool is never reused" is expressible) and the in-memory
`connected` flag. -/
structure Pool where
  id : Nat
  connected : Bool
deriving DecidableEq, Repr

/-- The module-level mutable globals of `src/index.ts`. -/
structure ServerState where
  globalSqlPool : Option Pool
  connectionRetryCount : Nat
deriving DecidableEq, Repr

/-- Observable effects of the connection code and the dispatcher:
closing a stale pool, one `sql.connect` attempt, a backoff wait, and the
execution of a tool's original `run` body. -/
inductive Event where
  | closePool (id : Nat)
  | connectAttempt (n : Nat)
  | waitMs (ms : Nat)
  | handlerRun (tool : String)
deriving DecidableEq, Repr

/-- `const MAX_RETRY_ATTEMPTS = 3`. -/
def MAX_RETRY_ATTEMPTS : Nat := 3

/-- The backoff delay computed after a failed attempt:
`Math.min(1000 * Math.pow(2, attempt - 1), 10000)`. -/
def connectDelay (attempt : Nat) : Nat :=
  min (1000 * 2 ^ (attempt - 1)) 10000

/-- The message of the error thrown when every attempt failed:
`Failed to connect after ${MAX_RETRY_ATTEMPTS} attempts. Last error:
${lastError?.message || 'Unknown error'}` (an empty message is falsy in
JS, hence also replaced by `Unknown error`). -/
def retryExhaustedMsg (lastErr : Option String) : String :=
  "Failed to connect after " ++ toString MAX_RETRY_ATTEMPTS ++ " attempts. Last error: " ++
    (match lastErr with
     | some m => if m = "" then "Unknown error" else m
     | none => "Unknown error")

/-- The body of one `try` block of the retry loop: build the config (the
port error from `createSqlConfig` is thrown inside the `try`) and, when
that succeeds, call `sql.connect`.  `connect` is the environment of the
driver: the outcome of the `sql.connect` call made on a given config at a
given attempt number. -/
def attemptStep (env : Env) (platform : String)
    (connect : SqlConfig → Nat → Except String Pool) (attempt : Nat) :
    Except String Pool :=
  match createSqlConfig env platform with
  | Except.error e => Except.error e
  | Except.ok cfg => connect cfg attempt

/-- The retry loop of `ensureSqlConnection`, recursing over the remaining
attempt numbers (`attemptSchedule` instantiates it with `1, 2, 3`).  On
success the pool global is set and `connectionRetryCount` reset; after a
failed attempt the backoff wait is performed only when
`attempt < MAX_RETRY_ATTEMPTS`. -/
def attemptLoop (env : Env) (platform : String)
    (connect : SqlConfig → Nat → Except String Pool) :
    List Nat → Option String → ServerState → List Event →
      Except String Unit × ServerState × List Event
  | [], lastErr, st, tr =>
      (Except.error (retryExhaustedMsg lastErr), st, tr)
  | attempt :: rest, _, st, tr =>
      match attemptStep env platform connect attempt with
      | Except.ok pool =>
          (Except.ok (),
           { st with globalSqlPool := some pool, connectionRetryCount := 0 },
           tr ++ [Event.connectAttempt attempt])
      | Except.error e =>
          attemptLoop env platform connect rest (some e) st
            (if attempt < MAX_RETRY_ATTEMPTS then
               tr ++ [Event.connectAttempt attempt, Event.waitMs (connectDelay attempt)]
             else tr ++ [Event.connectAttempt attempt])

/-- The attempt numbers `1, ..., MAX_RETRY_ATTEMPTS` walked by the
`for` loop. -/
def attemptSchedule : List Nat := List.range' 1 MAX_RETRY_ATTEMPTS

/-- `ensureSqlConnection` from `src/index.ts`: reuse a connected pool
without touching the network; otherwise close a stale pool (any close
error is caught and only logged), clear the global, and run the retry
loop.  Returns the result (a thrown error on exhaustion), the updated
globals, and the event trace. -/
def ensureSqlConnection (env : Env) (platform : String)
    (connect : SqlConfig → Nat → Except String Pool)
    (st : ServerState) : Except String Unit × ServerState × List Event :=
  match st.globalSqlPool with
  | some pool =>
      if pool.connected then (Except.ok (), st, [])
      else
        attemptLoop env platform connect attemptSchedule none
          { st with globalSqlPool := none } [Event.closePool pool.id]
  | none =>
      attemptLoop env platform connect attemptSchedule none st []

/-- The `'error'` observer registered on a freshly connected pool: it sets
`globalSqlPool = null` so that the next request reconnects. -/
def poolErrorObserver (st : ServerState) : ServerState :=
  { st with globalSqlPool := none }

/-- Modelled from the spec: the tool classes under `src/tools/` are not in
the sources, only imported; each tool carries a unique `name` key, and the
spec's operation names are `insert_data`, `read_data`, `update_data`,
`create_table`, `create_index`, `list_table`, `drop_table`,
`describe_table`. -/
def insertDataToolName : String := "insert_data"

/-- Modelled from the spec: name of the read-data tool. -/
def readDataToolName : String := "read_data"

/-- Modelled from the spec: name of the update-data tool. -/
def updateDataToolName : String := "update_data"

/-- Modelled from the spec: name of the create-table tool. -/
def createTableToolName : String := "create_table"

/-- Modelled from the spec: name of the create-index tool. -/
def createIndexToolName : String := "create_index"

/-- Modelled from the spec: name of the list-table tool. -/
def listTableToolName : String := "list_table"

/-- Modelled from the spec: name of the drop-table tool. -/
def dropTableToolName : String := "drop_table"

/-- Modelled from the spec: name of the describe-table tool. -/
def describeTableToolName : String := "describe_table"

/-- The write-tagged operations named by the spec's mode-gate section. -/
def writeToolNames : List String :=
  [insertDataToolName, updateDataToolName, createTableToolName,
   createIndexToolName, dropTableToolName]

/-- The names handled by the `switch` of the `CallToolRequestSchema`
handler, in source order. -/
def registeredToolNames : List String :=
  [insertDataToolName, readDataToolName, updateDataToolName,
   createTableToolName, createIndexToolName, listTableToolName,
   dropTableToolName, describeTableToolName]

/-- A JS value held in a request-arguments field, as far as the dispatcher
inspects it: a string, or anything else. -/
inductive ArgVal where
  | str (s : String)
  | other
deriving DecidableEq, Repr

/-- The request arguments object, restricted to the one field
`src/index.ts` itself inspects (`args.tableName`); the rest is only passed
through to the tool handlers. -/
structure Args where
  tableName : Option ArgVal
deriving DecidableEq, Repr

/-- The check `!args || typeof args.tableName !== "string"` in the
`describe_table` case: `some s` exactly when `args` exists and its
`tableName` is a string. -/
def tableNameString (args : Option Args) : Option String :=
  match args with
  | none => none
  | some a =>
    match a.tableName with
    | some (ArgVal.str s) => some s
    | _ => none

/-- Modelled from the spec: the tool `run` bodies under `src/tools/` are
not in the sources.  Per the spec's handler contract, a handler receives
the arguments and returns a structured result or raises a fault; it is
modelled as an opaque environment keyed by tool name, its structured
result identified with its JSON rendering. -/
def Handlers : Type :=
  String → Option Args → Except String String

/-- `const isReadOnly = process.env.READONLY === "true"`. -/
def isReadOnlyFlag (env : Env) : Bool :=
  env.READONLY == some "true"

/-- The `ListToolsRequestSchema` handler: the two hand-maintained tool
lists, selected by the read-only flag (restricted mode lists only
list/read/describe). -/
def listTools (isReadOnly : Bool) : List String :=
  if isReadOnly then
    [listTableToolName, readDataToolName, describeTableToolName]
  else
    [insertDataToolName, readDataToolName, describeTableToolName,
     updateDataToolName, createTableToolName, createIndexToolName,
     dropTableToolName, listTableToolName]

/-- A wrapped tool `run` (`wrapToolRun` is applied to every tool at module
load): first `ensureSqlConnection`, and only when that returns normally
the original `run` body (a `handlerRun` event).  A fault from either is
propagated to the dispatcher's `catch`. -/
def runTool (env : Env) (platform : String)
    (connect : SqlConfig → Nat → Except String Pool)
    (handlers : Handlers) (toolName : String) (args : Option Args)
    (st : ServerState) : Except String String × ServerState × List Event :=
  match ensureSqlConnection env platform connect st with
  | (Except.ok _, st2, tr) =>
      (handlers toolName args, st2, tr ++ [Event.handlerRun toolName])
  | (Except.error e, st2, tr) => (Except.error e, st2, tr)

/-- The uniform response of the `CallToolRequestSchema` handler: a text
content block, marked `isError: true` on the error paths. -/
inductive Envelope where
  | success (text : String)
  | error (text : String)
deriving DecidableEq, Repr

/-- The tail of the `try`/`catch` around the `switch`: a normal result is
wrapped as a success Envelope, a thrown fault is caught and wrapped as
`Error occurred: ...`. -/
def wrapResult (r : Except String String × ServerState × List Event) :
    Envelope × ServerState × List Event :=
  match r with
  | (Except.ok v, st, tr) => (Envelope.success v, st, tr)
  | (Except.error e, st, tr) => (Envelope.error ("Error occurred: " ++ e), st, tr)

/-- The `CallToolRequestSchema` handler of `src/index.ts`: a `switch` on
the tool name (source order), the inline `tableName` validation of the
`describe_table` case, an `Unknown tool` error Envelope on the default
case, and the surrounding `try`/`catch`.  Note that it never consults the
read-only flag. -/
def handleCallTool (env : Env) (platform : String)
    (connect : SqlConfig → Nat → Except String Pool)
    (handlers : Handlers) (name : String) (args : Option Args)
    (st : ServerState) : Envelope × ServerState × List Event :=
  if name = insertDataToolName then
    wrapResult (runTool env platform connect handlers insertDataToolName args st)
  else if name = readDataToolName then
    wrapResult (runTool env platform connect handlers readDataToolName args st)
  else if name = updateDataToolName then
    wrapResult (runTool env platform connect handlers updateDataToolName args st)
  else if name = createTableToolName then
    wrapResult (runTool env platform connect handlers createTableToolName args st)
  else if name = createIndexToolName then
    wrapResult (runTool env platform connect handlers createIndexToolName args st)
  else if name = listTableToolName then
    wrapResult (runTool env platform connect handlers listTableToolName args st)
  else if name = dropTableToolName then
    wrapResult (runTool env platform connect handlers dropTableToolName args st)
  else if name = describeTableToolName then
    match tableNameString args with
    | none =>
        (Envelope.error "Missing or invalid 'tableName' argument for describe_table tool.",
         st, [])
    | some _ =>
        wrapResult (runTool env platform connect handlers describeTableToolName args st)
  else
    (Envelope.error ("Unknown tool: " ++ name), st, [])

/-- Number of `sql.connect` attempts recorded in a trace. -/
def isConnectAttempt : Event → Bool
  | Event.connectAttempt _ => true
  | _ => false

/-- Count of connection attempts in an event trace. -/
def countAttempts (tr : List Event) : Nat :=
  (tr.filter isConnectAttempt).length

/-- The port check of `createSqlConfig` passes: the resolved port is a
number inside `[1, 65535]`. -/
def portInRange (env : Env) : Prop :=
  ∃ v, resolvePort env = some v ∧ 1 ≤ v ∧ v ≤ 65535

/-! ### Concrete fixtures used by witnesses and counterexamples -/

/-- An environment with every variable unset. -/
def env0 : Env := ⟨none, none, none, none, none, none, none, none, none⟩

/-- An environment whose `PORT` is set to the out-of-range value 70000. -/
def envBadPort : Env := { env0 with PORT := some "70000" }

/-- An environment selecting restricted (read-only) mode. -/
def envReadOnly : Env := { env0 with READONLY := some "true" }

/-- A connected pool. -/
def poolA : Pool := ⟨1, true⟩

/-- A disconnected (stale) pool. -/
def poolStale : Pool := ⟨7, false⟩

/-- Initial globals: no pool held. -/
def st0 : ServerState := ⟨none, 0⟩

/-- Globals holding the connected pool `poolA`. -/
def stReady : ServerState := ⟨some poolA, 0⟩

/-- Globals holding the stale pool `poolStale`. -/
def stStale : ServerState := ⟨some poolStale, 0⟩

/-- A driver environment in which every `sql.connect` call succeeds,
returning the connected pool `poolA`. -/
def okConnect : SqlConfig → Nat → Except String Pool :=
  fun _ _ => Except.ok poolA

/-- A driver environment in which every `sql.connect` call is rejected. -/
def failConnect : SqlConfig → Nat → Except String Pool :=
  fun _ _ => Except.error "refused"

/-- A handler environment in which every tool run succeeds with a fixed
rendered result. -/
def okHandlers : Handlers := fun _ _ => Except.ok "1 row inserted"

/-! ### Helper lemmas about the retry loop -/

theorem connectDelay_one : connectDelay 1 = 1000 := by decide

theorem connectDelay_two : connectDelay 2 = 2000 := by decide

theorem attemptSchedule_eq : attemptSchedule = [1, 2, 3] := by decide

theorem countAttempts_append (tr1 tr2 : List Event) :
    countAttempts (tr1 ++ tr2) = countAttempts tr1 + countAttempts tr2 := by
  simp [countAttempts, List.filter_append]

theorem retryExhaustedMsg_some (m : String) (hm : m ≠ "") :
    retryExhaustedMsg (some m) =
      "Failed to connect after 3 attempts. Last error: " ++ m := by
  simp only [retryExhaustedMsg, if_neg hm]
  rfl

/-- If the port check fails, `createSqlConfig` is the invalid-port error. -/
theorem createSqlConfig_error_of_bad_port (env : Env) (platform : String)
    (hnot : ¬ portInRange env) :
    createSqlConfig env platform = Except.error (invalidPortMsg env) := by
  cases hres : resolvePort env with
  | none => simp [createSqlConfig, hres]
  | some v =>
    have hout : v < 1 ∨ v > 65535 := by
      by_contra hc
      push_neg at hc
      exact hnot ⟨v, hres, by omega, by omega⟩
    have hcond : (decide (v < 1) || decide (v > 65535)) = true := by
      rcases hout with h | h <;> simp [h]
    simp [createSqlConfig, hres, hcond]

/-- If the port check passes, `createSqlConfig` succeeds. -/
theorem createSqlConfig_isOk_of_port (env : Env) (platform : String)
    (h : portInRange env) : (createSqlConfig env platform).isOk = true := by
  obtain ⟨v, hv, h1, h2⟩ := h
  have hcond : (decide (v < 1) || decide (v > 65535)) = false := by
    simp only [Bool.or_eq_false_iff, decide_eq_false_iff_not, not_lt]
    omega
  simp [createSqlConfig, hv, hcond, Except.isOk, Except.toBool]

/-- The invalid-port message is never the empty string. -/
theorem invalidPortMsg_ne_empty (env : Env) : invalidPortMsg env ≠ "" := by
  intro h
  have hlen := congrArg String.length h
  simp [invalidPortMsg, String.length_append] at hlen
  exact absurd hlen.1.1 (by decide)

/-- When every attempt in the three-element schedule fails, the loop
performs the two backoff waits and ends with the exhaustion error carrying
the last failure. -/
theorem attemptLoop_all_fail (env : Env) (platform : String)
    (connect : SqlConfig → Nat → Except String Pool) (st : ServerState)
    (tr : List Event) (m1 m2 m3 : String)
    (h1 : attemptStep env platform connect 1 = Except.error m1)
    (h2 : attemptStep env platform connect 2 = Except.error m2)
    (h3 : attemptStep env platform connect 3 = Except.error m3) :
    attemptLoop env platform connect [1, 2, 3] none st tr =
      (Except.error (retryExhaustedMsg (some m3)), st,
       tr ++ [Event.connectAttempt 1, Event.waitMs 1000, Event.connectAttempt 2,
              Event.waitMs 2000, Event.connectAttempt 3]) := by
  simp [attemptLoop, h1, h2, h3, MAX_RETRY_ATTEMPTS, connectDelay_one, connectDelay_two]

/-- When the first attempt of the schedule succeeds, the loop stores the
new pool, resets the retry count, and records a single attempt. -/
theorem attemptLoop_first_ok (env : Env) (platform : String)
    (connect : SqlConfig → Nat → Except String Pool) (st : ServerState)
    (tr : List Event) (q : Pool)
    (h1 : attemptStep env platform connect 1 = Except.ok q) :
    attemptLoop env platform connect [1, 2, 3] none st tr =
      (Except.ok (), { st with globalSqlPool := some q, connectionRetryCount := 0 },
       tr ++ [Event.connectAttempt 1]) := by
  simp [attemptLoop, h1]

/-- The loop makes at most one connection attempt per scheduled attempt
number. -/
theorem attemptLoop_countAttempts (env : Env) (platform : String)
    (connect : SqlConfig → Nat → Except String Pool) :
    ∀ (l : List Nat) (lastErr : Option String) (st : ServerState) (tr : List Event),
      countAttempts (attemptLoop env platform connect l lastErr st tr).2.2 ≤
        countAttempts tr + l.length := by
  intro l
  induction l with
  | nil =>
    intro lastErr st tr
    simp [attemptLoop]
  | cons a rest ih =>
    intro lastErr st tr
    simp only [attemptLoop]
    cases hstep : attemptStep env platform connect a with
    | ok pool =>
      simp [countAttempts_append, countAttempts, isConnectAttempt]
    | error e =>
      rcases Nat.lt_or_ge a MAX_RETRY_ATTEMPTS with hlt | hge
      · rw [if_pos hlt]
        have h := ih (some e) st (tr ++ [Event.connectAttempt a, Event.waitMs (connectDelay a)])
        rw [countAttempts_append] at h
        have h2 : countAttempts [Event.connectAttempt a, Event.waitMs (connectDelay a)] = 1 := by
          simp [countAttempts, isConnectAttempt]
        rw [h2] at h
        simp only [List.length_cons]
        omega
      · rw [if_neg (Nat.not_lt.mpr hge)]
        have h := ih (some e) st (tr ++ [Event.connectAttempt a])
        rw [countAttempts_append] at h
        have h2 : countAttempts [Event.connectAttempt a] = 1 := by
          simp [countAttempts, isConnectAttempt]
        rw [h2] at h
        simp only [List.length_cons]
        omega

/-- With no pool held, `ensureSqlConnection` is the retry loop run on the
full schedule with an empty trace. -/
theorem ensure_none (env : Env) (platform : String)
    (connect : SqlConfig → Nat → Except String Pool) (st : ServerState)
    (hpool : st.globalSqlPool = none) :
    ensureSqlConnection env platform connect st =
      attemptLoop env platform connect attemptSchedule none st [] := by
  simp [ensureSqlConnection, hpool]

/-- With a stale pool held, `ensureSqlConnection` closes it, clears the
reference, and runs the retry loop. -/
theorem ensure_stale (env : Env) (platform : String)
    (connect : SqlConfig → Nat → Except String Pool) (st : ServerState) (p : Pool)
    (hpool : st.globalSqlPool = some p) (hstale : p.connected = false) :
    ensureSqlConnection env platform connect st =
      attemptLoop env platform connect attemptSchedule none
        { st with globalSqlPool := none } [Event.closePool p.id] := by
  simp [ensureSqlConnection, hpool, hstale]

/-- The retry loop never records a handler execution. -/
theorem attemptLoop_no_handlerRun (env : Env) (platform : String)
    (connect : SqlConfig → Nat → Except String Pool) :
    ∀ (l : List Nat) (lastErr : Option String) (st : ServerState) (tr : List Event)
      (t : String),
      Event.handlerRun t ∈ (attemptLoop env platform connect l lastErr st tr).2.2 →
      Event.handlerRun t ∈ tr := by
  intro l
  induction l with
  | nil =>
    intro lastErr st tr t h
    simpa [attemptLoop] using h
  | cons a rest ih =>
    intro lastErr st tr t h
    simp only [attemptLoop] at h
    cases hstep : attemptStep env platform connect a with
    | ok pool =>
      rw [hstep] at h
      simp at h
      exact h
    | error e =>
      rw [hstep] at h
      have h2 := ih _ _ _ _ h
      rcases Nat.lt_or_ge a MAX_RETRY_ATTEMPTS with hlt | hge
      · rw [if_pos hlt] at h2
        simp at h2
        exact h2
      · rw [if_neg (Nat.not_lt.mpr hge)] at h2
        simp at h2
        exact h2

/-- `ensureSqlConnection` never records a handler execution. -/
theorem ensure_no_handlerRun (env : Env) (platform : String)
    (connect : SqlConfig → Nat → Except String Pool) (st : ServerState) (t : String)
    (h : Event.handlerRun t ∈ (ensureSqlConnection env platform connect st).2.2) :
    False := by
  cases hp : st.globalSqlPool with
  | some p =>
    cases hc : p.connected with
    | true => simp [ensureSqlConnection, hp, hc] at h
    | false =>
      rw [ensure_stale env platform connect st p hp hc] at h
      have h2 := attemptLoop_no_handlerRun env platform connect _ _ _ _ _ h
      simp at h2
  | none =>
    rw [ensure_none env platform connect st hp] at h
    have h2 := attemptLoop_no_handlerRun env platform connect _ _ _ _ _ h
    simp at h2

/-- A normal return of the retry loop delivers a pool freshly produced by
a successful connection attempt of the schedule. -/
theorem attemptLoop_ok (env : Env) (platform : String)
    (connect : SqlConfig → Nat → Except String Pool) :
    ∀ (l : List Nat) (lastErr : Option String) (st : ServerState) (tr : List Event)
      (st2 : ServerState) (tr2 : List Event),
      attemptLoop env platform connect l lastErr st tr = (Except.ok (), st2, tr2) →
      ∃ q a, a ∈ l ∧ attemptStep env platform connect a = Except.ok q ∧
        st2.globalSqlPool = some q := by
  intro l
  induction l with
  | nil =>
    intro lastErr st tr st2 tr2 h
    simp [attemptLoop] at h
  | cons a rest ih =>
    intro lastErr st tr st2 tr2 h
    simp only [attemptLoop] at h
    cases hstep : attemptStep env platform connect a with
    | ok pool =>
      rw [hstep] at h
      simp only [Prod.mk.injEq] at h
      obtain ⟨-, h2, -⟩ := h
      exact ⟨pool, a, by simp, hstep, by rw [← h2]⟩
    | error e =>
      rw [hstep] at h
      obtain ⟨q, b, hb, hs, hq⟩ := ih _ _ _ _ _ h
      exact ⟨q, b, List.mem_cons_of_mem _ hb, hs, hq⟩

/-- A normal return of `ensureSqlConnection` leaves the global holding a
pool that either was already held with its `connected` flag up, or was
just produced by a successful connection attempt. -/
theorem ensure_ok_pool (env : Env) (platform : String)
    (connect : SqlConfig → Nat → Except String Pool) (st : ServerState)
    (h : (ensureSqlConnection env platform connect st).1 = Except.ok ()) :
    ∃ q, (ensureSqlConnection env platform connect st).2.1.globalSqlPool = some q ∧
      (q.connected = true ∨ ∃ a, attemptStep env platform connect a = Except.ok q) := by
  cases hp : st.globalSqlPool with
  | some p =>
    cases hc : p.connected with
    | true =>
      have he : ensureSqlConnection env platform connect st = (Except.ok (), st, []) := by
        simp [ensureSqlConnection, hp, hc]
      rw [he]
      exact ⟨p, hp, Or.inl hc⟩
    | false =>
      rw [ensure_stale env platform connect st p hp hc] at h ⊢
      rcases hr : attemptLoop env platform connect attemptSchedule none
          { st with globalSqlPool := none } [Event.closePool p.id] with ⟨res, st2, tr2⟩
      rw [hr] at h
      have hres : res = Except.ok () := h
      subst hres
      obtain ⟨q, a, ha, hs, hq⟩ := attemptLoop_ok env platform connect _ _ _ _ _ _ hr
      exact ⟨q, hq, Or.inr ⟨a, hs⟩⟩
  | none =>
    rw [ensure_none env platform connect st hp] at h ⊢
    rcases hr : attemptLoop env platform connect attemptSchedule none st []
        with ⟨res, st2, tr2⟩
    rw [hr] at h
    have hres : res = Except.ok () := h
    subst hres
    obtain ⟨q, a, ha, hs, hq⟩ := attemptLoop_ok env platform connect _ _ _ _ _ _ hr
    exact ⟨q, hq, Or.inr ⟨a, hs⟩⟩

/-- `wrapResult` only rewraps; the trace passes through. -/
theorem wrapResult_trace (r : Except String String × ServerState × List Event) :
    (wrapResult r).2.2 = r.2.2 := by
  rcases r with ⟨res, st, tr⟩
  cases res <;> rfl

/-- A wrapped run when the connection phase succeeds. -/
theorem runTool_eq_ok (env : Env) (platform : String)
    (connect : SqlConfig → Nat → Except String Pool) (handlers : Handlers)
    (nm : String) (args : Option Args) (st st2 : ServerState) (tr : List Event)
    (he : ensureSqlConnection env platform connect st = (Except.ok (), st2, tr)) :
    runTool env platform connect handlers nm args st =
      (handlers nm args, st2, tr ++ [Event.handlerRun nm]) := by
  unfold runTool
  rw [he]

/-- A wrapped run when the connection phase throws: the original handler
body never executes. -/
theorem runTool_eq_err (env : Env) (platform : String)
    (connect : SqlConfig → Nat → Except String Pool) (handlers : Handlers)
    (nm : String) (args : Option Args) (st st2 : ServerState) (tr : List Event)
    (e : String)
    (he : ensureSqlConnection env platform connect st = (Except.error e, st2, tr)) :
    runTool env platform connect handlers nm args st = (Except.error e, st2, tr) := by
  unfold runTool
  rw [he]

/-- If a wrapped run's trace shows the handler body executing, the
connection phase returned normally first. -/
theorem runTool_handlerRun_ensure_ok (env : Env) (platform : String)
    (connect : SqlConfig → Nat → Except String Pool) (handlers : Handlers)
    (nm : String) (args : Option Args) (st : ServerState) (t : String)
    (h : Event.handlerRun t ∈ (runTool env platform connect handlers nm args st).2.2) :
    (ensureSqlConnection env platform connect st).1 = Except.ok () := by
  rcases he : ensureSqlConnection env platform connect st with ⟨res, st2, tr⟩
  cases res with
  | ok u =>
    cases u
    rfl
  | error e =>
    exfalso
    rw [runTool_eq_err env platform connect handlers nm args st st2 tr e he] at h
    apply ensure_no_handlerRun env platform connect st t
    rw [he]
    exact h

/-- Dispatch of an unregistered name: the default `switch` case. -/
theorem handleCallTool_unknown (env : Env) (platform : String)
    (connect : SqlConfig → Nat → Except String Pool) (handlers : Handlers)
    (name : String) (args : Option Args) (st : ServerState)
    (hmem : name ∉ registeredToolNames) :
    handleCallTool env platform connect handlers name args st =
      (Envelope.error ("Unknown tool: " ++ name), st, []) := by
  simp only [registeredToolNames, List.mem_cons, List.not_mem_nil, or_false,
    not_or] at hmem
  obtain ⟨n1, n2, n3, n4, n5, n6, n7, n8⟩ := hmem
  simp [handleCallTool, n1, n2, n3, n4, n5, n6, n7, n8]

/-- Dispatch of `describe_table` with a missing or non-string `tableName`:
the inline validation returns the error envelope before any connection
work. -/
theorem handleCallTool_describe_invalid (env : Env) (platform : String)
    (connect : SqlConfig → Nat → Except String Pool) (handlers : Handlers)
    (args : Option Args) (st : ServerState)
    (hv : tableNameString args = none) :
    handleCallTool env platform connect handlers describeTableToolName args st =
      (Envelope.error "Missing or invalid 'tableName' argument for describe_table tool.",
       st, []) := by
  simp [handleCallTool, describeTableToolName, insertDataToolName, readDataToolName,
    updateDataToolName, createTableToolName, createIndexToolName, listTableToolName,
    dropTableToolName, hv]

/-- Dispatch of a registered name (with a valid `tableName` when the name
is `describe_table`) is the wrapped run of that tool. -/
theorem handleCallTool_registered (env : Env) (platform : String)
    (connect : SqlConfig → Nat → Except String Pool) (handlers : Handlers)
    (name : String) (args : Option Args) (st : ServerState)
    (hmem : name ∈ registeredToolNames)
    (hdesc : name = describeTableToolName → (tableNameString args).isSome = true) :
    handleCallTool env platform connect handlers name args st =
      wrapResult (runTool env platform connect handlers name args st) := by
  simp only [registeredToolNames, List.mem_cons, List.not_mem_nil, or_false] at hmem
  rcases hmem with h | h | h | h | h | h | h | h <;> subst h
  · simp [handleCallTool]
  · simp [handleCallTool, readDataToolName, insertDataToolName]
  · simp [handleCallTool, updateDataToolName, insertDataToolName, readDataToolName]
  · simp [handleCallTool, createTableToolName, insertDataToolName, readDataToolName,
      updateDataToolName]
  · simp [handleCallTool, createIndexToolName, insertDataToolName, readDataToolName,
      updateDataToolName, createTableToolName]
  · simp [handleCallTool, listTableToolName, insertDataToolName, readDataToolName,
      updateDataToolName, createTableToolName, createIndexToolName]
  · simp [handleCallTool, dropTableToolName, insertDataToolName, readDataToolName,
      updateDataToolName, createTableToolName, createIndexToolName, listTableToolName]
  · obtain ⟨s, hs⟩ := Option.isSome_iff_exists.mp (hdesc rfl)
    simp [handleCallTool, describeTableToolName, insertDataToolName, readDataToolName,
      updateDataToolName, createTableToolName, createIndexToolName, listTableToolName,
      dropTableToolName, hs]

/-! ### Theorems -/

/-- C8: when `ensureSqlConnection` is entered while the held pool reports
itself connected, it returns immediately with the state unchanged and an
empty trace — zero connection attempts, zero closes, zero waits; the only
check performed is the in-memory `connected` flag. -/
theorem ensure_ready_pool_no_attempts (env : Env) (platform : String)
    (connect : SqlConfig → Nat → Except String Pool) (st : ServerState) (p : Pool)
    (hpool : st.globalSqlPool = some p) (hconn : p.connected = true) :
    ensureSqlConnection env platform connect st = (Except.ok (), st, []) := by
  simp [ensureSqlConnection, hpool, hconn]

/-- Witness for C8 at a concrete ready state. -/
theorem ensure_ready_pool_no_attempts_witness :
    ensureSqlConnection env0 "linux" failConnect stReady = (Except.ok (), stReady, []) :=
  ensure_ready_pool_no_attempts env0 "linux" failConnect stReady poolA rfl rfl

/-- C9: `createSqlConfig` succeeds exactly when the resolved port is a
number in `[1, 65535]`; for a `NaN` or out-of-range port it fails with the
invalid-port error. -/
theorem createSqlConfig_port_validation (env : Env) (platform : String) :
    (portInRange env → (createSqlConfig env platform).isOk = true) ∧
    (¬ portInRange env →
      createSqlConfig env platform = Except.error (invalidPortMsg env)) :=
  ⟨createSqlConfig_isOk_of_port env platform,
   createSqlConfig_error_of_bad_port env platform⟩

/-- Witness for C9: the default port 1433 resolves successfully, and port
70000 is rejected with the invalid-port error. -/
theorem createSqlConfig_port_validation_witness :
    (createSqlConfig env0 "linux").isOk = true ∧
    createSqlConfig envBadPort "linux" =
      Except.error "Invalid port number: 70000. Must be between 1 and 65535." := by
  constructor
  · exact (createSqlConfig_port_validation env0 "linux").1
      ⟨1433, by decide, by decide, by decide⟩
  · have hmsg : invalidPortMsg envBadPort =
        "Invalid port number: 70000. Must be between 1 and 65535." := by decide
    rw [← hmsg]
    apply (createSqlConfig_port_validation envBadPort "linux").2
    rintro ⟨v, hv, h1, h2⟩
    have hres : resolvePort envBadPort = some 70000 := by decide
    rw [hres] at hv
    cases hv
    omega

/-- C2 counterexample: with every required variable absent (host,
database, username, password all unset) `createSqlConfig` does not fail —
it returns a config whose credential fields are simply unset. -/
theorem createSqlConfig_missing_fields_cex :
    env0.SERVER_NAME = none ∧ env0.DATABASE_NAME = none ∧
    env0.SQL_USERNAME = none ∧ env0.SQL_PASSWORD = none ∧
    (createSqlConfig env0 "linux").isOk = true := by decide

/-- C2 amended: `createSqlConfig` performs no required-field validation;
whenever the port check passes it returns a config that passes the
host/database/username/password variables through unchanged, present or
not. -/
theorem createSqlConfig_passthrough (env : Env) (platform : String)
    (h : portInRange env) :
    ∃ cfg, createSqlConfig env platform = Except.ok cfg ∧
      cfg.server = env.SERVER_NAME ∧ cfg.database = env.DATABASE_NAME ∧
      cfg.user = env.SQL_USERNAME ∧ cfg.password = env.SQL_PASSWORD := by
  obtain ⟨v, hv, h1, h2⟩ := h
  have hcond : (decide (v < 1) || decide (v > 65535)) = false := by
    simp only [Bool.or_eq_false_iff, decide_eq_false_iff_not, not_lt]
    omega
  cases hc : createSqlConfig env platform with
  | error e => simp [createSqlConfig, hv, hcond] at hc
  | ok cfg =>
    simp only [createSqlConfig, hv, hcond, Bool.false_eq_true, if_false,
      Except.ok.injEq] at hc
    refine ⟨cfg, rfl, ?_, ?_, ?_, ?_⟩ <;> rw [← hc]

/-- Witness for the amended C2 at the all-absent environment. -/
theorem createSqlConfig_passthrough_witness :
    ∃ cfg, createSqlConfig env0 "linux" = Except.ok cfg ∧
      cfg.server = env0.SERVER_NAME ∧ cfg.database = env0.DATABASE_NAME ∧
      cfg.user = env0.SQL_USERNAME ∧ cfg.password = env0.SQL_PASSWORD :=
  createSqlConfig_passthrough env0 "linux" ⟨1433, by decide, by decide, by decide⟩

/-- C4: entered with no pool held, `ensureSqlConnection` performs at most
`MAX_RETRY_ATTEMPTS = 3` connection attempts whatever the driver does;
and when all three attempts fail it returns the `ConnectionError` whose
message carries the last failure's message, leaving the pool reference
absent, after backoff waits of 1000ms and 2000ms between consecutive
attempts. -/
theorem ensure_no_pool_retries (env : Env) (platform : String) (st : ServerState)
    (hpool : st.globalSqlPool = none) :
    (∀ connect, countAttempts (ensureSqlConnection env platform connect st).2.2 ≤
        MAX_RETRY_ATTEMPTS) ∧
    (∀ connect m1 m2 m3,
      attemptStep env platform connect 1 = Except.error m1 →
      attemptStep env platform connect 2 = Except.error m2 →
      attemptStep env platform connect 3 = Except.error m3 → m3 ≠ "" →
      ensureSqlConnection env platform connect st =
        (Except.error ("Failed to connect after 3 attempts. Last error: " ++ m3), st,
         [Event.connectAttempt 1, Event.waitMs 1000, Event.connectAttempt 2,
          Event.waitMs 2000, Event.connectAttempt 3])) := by
  constructor
  · intro connect
    rw [ensure_none env platform connect st hpool]
    have h := attemptLoop_countAttempts env platform connect attemptSchedule none st []
    simpa [attemptSchedule_eq, countAttempts, MAX_RETRY_ATTEMPTS] using h
  · intro connect m1 m2 m3 h1 h2 h3 hm3
    rw [ensure_none env platform connect st hpool, attemptSchedule_eq,
        attemptLoop_all_fail env platform connect st [] m1 m2 m3 h1 h2 h3,
        retryExhaustedMsg_some m3 hm3]
    simp

/-- Witness for C4: all three attempts refused by the driver. -/
theorem ensure_no_pool_retries_witness :
    st0.globalSqlPool = none ∧
    ensureSqlConnection env0 "linux" failConnect st0 =
      (Except.error "Failed to connect after 3 attempts. Last error: refused", st0,
       [Event.connectAttempt 1, Event.waitMs 1000, Event.connectAttempt 2,
        Event.waitMs 2000, Event.connectAttempt 3]) := by
  refine ⟨rfl, ?_⟩
  have h := (ensure_no_pool_retries env0 "linux" st0 rfl).2 failConnect
      "refused" "refused" "refused" rfl rfl rfl (by decide)
  rw [show ("Failed to connect after 3 attempts. Last error: " ++ "refused") =
      "Failed to connect after 3 attempts. Last error: refused" from rfl] at h
  exact h

/-- C5: a defunct pool is never reused.  When `ensureSqlConnection` finds
a held pool whose `connected` flag is down, it closes that pool (close
errors are caught inside the `try` and only logged — the close has no
failure path into the rest of the function), clears the reference, and
runs a fresh connection sequence whose pool comes from the driver, not
from the old reference; and after the pool error observer fires (clearing
the reference), the next call performs a fresh connection sequence on the
driver's new pool. -/
theorem stale_pool_never_reused (env : Env) (platform : String)
    (connect : SqlConfig → Nat → Except String Pool) (st : ServerState) (p q : Pool)
    (hpool : st.globalSqlPool = some p) (hstale : p.connected = false)
    (hstep : attemptStep env platform connect 1 = Except.ok q) :
    ensureSqlConnection env platform connect st =
      (Except.ok (), { st with globalSqlPool := some q, connectionRetryCount := 0 },
       [Event.closePool p.id, Event.connectAttempt 1]) ∧
    (poolErrorObserver st).globalSqlPool = none ∧
    ensureSqlConnection env platform connect (poolErrorObserver st) =
      (Except.ok (), { st with globalSqlPool := some q, connectionRetryCount := 0 },
       [Event.connectAttempt 1]) := by
  refine ⟨?_, rfl, ?_⟩
  · rw [ensure_stale env platform connect st p hpool hstale, attemptSchedule_eq,
        attemptLoop_first_ok env platform connect _ _ q hstep]
    rfl
  · rw [ensure_none env platform connect (poolErrorObserver st) rfl, attemptSchedule_eq,
        attemptLoop_first_ok env platform connect _ _ q hstep]
    rfl

/-- Witness for C5 at a concrete stale state. -/
theorem stale_pool_never_reused_witness :
    ensureSqlConnection env0 "linux" okConnect stStale =
      (Except.ok (), { stStale with globalSqlPool := some poolA, connectionRetryCount := 0 },
       [Event.closePool 7, Event.connectAttempt 1]) ∧
    (poolErrorObserver stStale).globalSqlPool = none ∧
    ensureSqlConnection env0 "linux" okConnect (poolErrorObserver stStale) =
      (Except.ok (), { stStale with globalSqlPool := some poolA, connectionRetryCount := 0 },
       [Event.connectAttempt 1]) :=
  stale_pool_never_reused env0 "linux" okConnect stStale poolStale poolA rfl rfl rfl

/-- C10: with an invalid `PORT`, the port error never surfaces directly:
`createSqlConfig` throws inside the retry loop's `try`, so each of the
three attempts fails with the invalid-port message (backoff waits
between them, the driver never consulted), and the caller receives the
`Failed to connect after 3 attempts` error carrying the port error's
text. -/
theorem ensure_bad_port_wrapped (env : Env) (platform : String)
    (connect : SqlConfig → Nat → Except String Pool) (st : ServerState)
    (hpool : st.globalSqlPool = none) (hbad : ¬ portInRange env) :
    ensureSqlConnection env platform connect st =
      (Except.error ("Failed to connect after 3 attempts. Last error: " ++ invalidPortMsg env),
       st,
       [Event.connectAttempt 1, Event.waitMs 1000, Event.connectAttempt 2,
        Event.waitMs 2000, Event.connectAttempt 3]) := by
  have hcfg := createSqlConfig_error_of_bad_port env platform hbad
  have hstep : ∀ a, attemptStep env platform connect a = Except.error (invalidPortMsg env) := by
    intro a
    simp [attemptStep, hcfg]
  rw [ensure_none env platform connect st hpool, attemptSchedule_eq,
      attemptLoop_all_fail env platform connect st [] _ _ _ (hstep 1) (hstep 2) (hstep 3),
      retryExhaustedMsg_some _ (invalidPortMsg_ne_empty env)]
  simp

/-- Witness for C10: `PORT=70000`, a driver that would always succeed —
the connect call is never reached, the wrapped port error is returned. -/
theorem ensure_bad_port_wrapped_witness :
    ensureSqlConnection envBadPort "linux" okConnect st0 =
      (Except.error "Failed to connect after 3 attempts. Last error: Invalid port number: 70000. Must be between 1 and 65535.",
       st0, [Event.connectAttempt 1, Event.waitMs 1000, Event.connectAttempt 2,
             Event.waitMs 2000, Event.connectAttempt 3]) := by
  have hbad : ¬ portInRange envBadPort := by
    rintro ⟨v, hv, h1, h2⟩
    have hres : resolvePort envBadPort = some 70000 := by decide
    rw [hres] at hv
    cases hv
    omega
  have h := ensure_bad_port_wrapped envBadPort "linux" okConnect st0 rfl hbad
  rw [show invalidPortMsg envBadPort =
      "Invalid port number: 70000. Must be between 1 and 65535." from rfl] at h
  rw [show ("Failed to connect after 3 attempts. Last error: " ++
      "Invalid port number: 70000. Must be between 1 and 65535.") =
      "Failed to connect after 3 attempts. Last error: Invalid port number: 70000. Must be between 1 and 65535." from rfl] at h
  exact h

/-- C6: whenever a dispatch's trace shows a tool's original handler body
executing, `ensureSqlConnection` returned normally on the pre-dispatch
state, and its post-state holds a pool that was, at acquisition time,
either already held with its `connected` flag verified up or freshly
delivered by a successful connection attempt. -/
theorem handler_requires_verified_connection (env : Env) (platform : String)
    (connect : SqlConfig → Nat → Except String Pool) (handlers : Handlers)
    (name : String) (args : Option Args) (st : ServerState) (t : String)
    (ht : Event.handlerRun t ∈
      (handleCallTool env platform connect handlers name args st).2.2) :
    (ensureSqlConnection env platform connect st).1 = Except.ok () ∧
    ∃ q, (ensureSqlConnection env platform connect st).2.1.globalSqlPool = some q ∧
      (q.connected = true ∨ ∃ a, attemptStep env platform connect a = Except.ok q) := by
  by_cases hmem : name ∈ registeredToolNames
  · by_cases hdesc : name = describeTableToolName ∧ tableNameString args = none
    · obtain ⟨hn, hv⟩ := hdesc
      subst hn
      rw [handleCallTool_describe_invalid env platform connect handlers args st hv] at ht
      simp at ht
    · have hdesc2 : name = describeTableToolName → (tableNameString args).isSome = true := by
        intro hn
        rcases htn : tableNameString args with _ | s
        · exact absurd ⟨hn, htn⟩ hdesc
        · rfl
      rw [handleCallTool_registered env platform connect handlers name args st hmem hdesc2,
          wrapResult_trace] at ht
      have hok := runTool_handlerRun_ensure_ok env platform connect handlers name args st t ht
      exact ⟨hok, ensure_ok_pool env platform connect st hok⟩
  · rw [handleCallTool_unknown env platform connect handlers name args st hmem] at ht
    simp at ht

/-- Witness for C6 at a concrete successful dispatch. -/
theorem handler_requires_verified_connection_witness :
    (ensureSqlConnection env0 "linux" okConnect st0).1 = Except.ok () ∧
    ∃ q, (ensureSqlConnection env0 "linux" okConnect st0).2.1.globalSqlPool = some q ∧
      (q.connected = true ∨ ∃ a, attemptStep env0 "linux" okConnect a = Except.ok q) :=
  handler_requires_verified_connection env0 "linux" okConnect okHandlers
    insertDataToolName none st0 insertDataToolName (by decide)

/-- C7: dispatch is a total function into envelopes — no fault escapes.
An unregistered name yields the unknown-tool error Envelope with an empty
trace (no connection attempt, no close, no wait); for a registered name,
a connection-phase fault or handler fault is caught and wrapped as an
`Error occurred:` error Envelope carrying its message, and a successful
handler result is wrapped as a success Envelope. -/
theorem dispatch_always_envelope (env : Env) (platform : String)
    (connect : SqlConfig → Nat → Except String Pool) (handlers : Handlers)
    (name : String) (args : Option Args) (st : ServerState) :
    (name ∉ registeredToolNames →
      handleCallTool env platform connect handlers name args st =
        (Envelope.error ("Unknown tool: " ++ name), st, [])) ∧
    (name ∈ registeredToolNames →
      (name = describeTableToolName → (tableNameString args).isSome = true) →
      (∀ st2 tr e, ensureSqlConnection env platform connect st = (Except.error e, st2, tr) →
        handleCallTool env platform connect handlers name args st =
          (Envelope.error ("Error occurred: " ++ e), st2, tr)) ∧
      (∀ st2 tr r, ensureSqlConnection env platform connect st = (Except.ok (), st2, tr) →
        handlers name args = Except.ok r →
        handleCallTool env platform connect handlers name args st =
          (Envelope.success r, st2, tr ++ [Event.handlerRun name])) ∧
      (∀ st2 tr e, ensureSqlConnection env platform connect st = (Except.ok (), st2, tr) →
        handlers name args = Except.error e →
        handleCallTool env platform connect handlers name args st =
          (Envelope.error ("Error occurred: " ++ e), st2,
           tr ++ [Event.handlerRun name]))) := by
  refine ⟨fun hmem => handleCallTool_unknown env platform connect handlers name args st hmem,
    fun hmem hdesc => ?_⟩
  rw [handleCallTool_registered env platform connect handlers name args st hmem hdesc]
  refine ⟨?_, ?_, ?_⟩
  · intro st2 tr e he
    rw [runTool_eq_err env platform connect handlers name args st st2 tr e he]
    rfl
  · intro st2 tr r he hr
    rw [runTool_eq_ok env platform connect handlers name args st st2 tr he, hr]
    rfl
  · intro st2 tr e he hr
    rw [runTool_eq_ok env platform connect handlers name args st st2 tr he, hr]
    rfl

/-- Witness for C7: the spec's own example, dispatching `delete_all`. -/
theorem dispatch_always_envelope_witness :
    handleCallTool env0 "linux" okConnect okHandlers "delete_all" none st0 =
      (Envelope.error "Unknown tool: delete_all", st0, []) := by
  have h := (dispatch_always_envelope env0 "linux" okConnect okHandlers
    "delete_all" none st0).1 (by decide)
  rw [show ("Unknown tool: " ++ "delete_all") = "Unknown tool: delete_all" from rfl] at h
  exact h

/-- C3 counterexample: dispatching `insert_data` with no arguments at all
(every required field missing) touches the connection before any
validation outcome: three connection attempts are recorded and the
envelope is the wrapped connection failure, not a validation error naming
a field. -/
theorem validation_before_connection_cex :
    handleCallTool env0 "linux" failConnect okHandlers insertDataToolName none st0 =
      (Envelope.error "Error occurred: Failed to connect after 3 attempts. Last error: refused",
       st0,
       [Event.connectAttempt 1, Event.waitMs 1000, Event.connectAttempt 2,
        Event.waitMs 2000, Event.connectAttempt 3]) ∧
    countAttempts
      (handleCallTool env0 "linux" failConnect okHandlers insertDataToolName none st0).2.2 =
      3 := by decide

/-- C3 amended: only `describe_table` is validated by the dispatcher
before the connection is touched — with a missing or non-string
`tableName` it returns the validation error Envelope naming `tableName`
with zero connection attempts; every other operation's wrapped run calls
`ensureSqlConnection` before any handler-side validation can happen. -/
theorem describe_table_validation (env : Env) (platform : String)
    (connect : SqlConfig → Nat → Except String Pool) (handlers : Handlers)
    (args : Option Args) (st : ServerState)
    (hv : tableNameString args = none) :
    handleCallTool env platform connect handlers describeTableToolName args st =
      (Envelope.error "Missing or invalid 'tableName' argument for describe_table tool.",
       st, []) ∧
    countAttempts
      (handleCallTool env platform connect handlers describeTableToolName args st).2.2 =
      0 := by
  have h := handleCallTool_describe_invalid env platform connect handlers args st hv
  exact ⟨h, by rw [h]; rfl⟩

/-- Witness for the amended C3: `describe_table` dispatched without
arguments. -/
theorem describe_table_validation_witness :
    handleCallTool env0 "linux" failConnect okHandlers describeTableToolName none st0 =
      (Envelope.error "Missing or invalid 'tableName' argument for describe_table tool.",
       st0, []) ∧
    countAttempts
      (handleCallTool env0 "linux" failConnect okHandlers describeTableToolName none st0).2.2 =
      0 :=
  describe_table_validation env0 "linux" failConnect okHandlers none st0 rfl

/-- C1 (divergence witness): with `READONLY=true` the mode is restricted
and every write-tagged tool is absent from the advertised list, but the
call dispatcher never consults the read-only flag: dispatching
`insert_data` executes the tool's handler (a `handlerRun` event is
recorded and the handler's result returned as a success Envelope) instead
of failing like an unregistered name. -/
theorem readonly_gate_listing_only :
    isReadOnlyFlag envReadOnly = true ∧
    (writeToolNames.all fun w => !((listTools (isReadOnlyFlag envReadOnly)).contains w)) =
      true ∧
    handleCallTool envReadOnly "linux" okConnect okHandlers insertDataToolName
        (some ⟨none⟩) st0 =
      (Envelope.success "1 row inserted", ⟨some poolA, 0⟩,
       [Event.connectAttempt 1, Event.handlerRun insertDataToolName]) ∧
    Envelope.success "1 row inserted" ≠
      Envelope.error ("Unknown tool: " ++ insertDataToolName) := by decide

end McpSqlServer
